import Mathlib

/-!
Formal model of the doc_rag ingestion-to-answer pipeline.

The definitions below are a shallow embedding of the Python sources:
  - src/app/v1/services/pinecone_service.py (vector index access)
  - src/app/v1/services/rag_service.py (retrieval-augmented query engine)
  - src/app/v1/services/document_processor.py (document ingestion)
  - src/app/v1/services/chat_service.py (chat sessions, message ordering,
    cursor pagination)

External capabilities (embedding model, Pinecone index, Groq LLM, the
CrossEncoder reranker, the SQL store) are modelled as oracles: a fallible
call becomes a value of type Except String / a function returning one, the
vector index becomes an explicit list of records, and SQL tables become
lists of rows.  Python floats are modelled as rationals, datetimes as
natural numbers counting microseconds (the MySQL columns are DATETIME(6)).
Wall-clock latency fields (response_time_ms) are not modelled.
-/

/-- Python str.strip(): drop leading and trailing whitespace.  (String.trim
is extensionally the same but does not reduce in the kernel, so the model
works on the character list.) -/
def pyStrip (s : String) : String :=
  ⟨((s.data.dropWhile Char.isWhitespace).reverse.dropWhile Char.isWhitespace).reverse⟩

/-- Helper for pyWords: split a character list on whitespace runs,
accumulating the current (reversed) word. -/
def pyWordsAux (cur : List Char) : List Char → List String
  | [] => if cur = [] then [] else [⟨cur.reverse⟩]
  | c :: cs =>
    if c.isWhitespace then
      if cur = [] then pyWordsAux [] cs else ⟨cur.reverse⟩ :: pyWordsAux [] cs
    else
      pyWordsAux (c :: cur) cs

/-- Python str.split() with no arguments: the whitespace-separated words. -/
def pyWords (s : String) : List String :=
  pyWordsAux [] s.data

/-- Python s[:500] (used to truncate persisted error messages). -/
def truncate500 (s : String) : String := ⟨s.data.take 500⟩

/-- A value stored in a vector-record metadata dictionary.  The code only
ever stores strings and ints there. -/
inductive MetaValue where
  | str (s : String)
  | nat (n : Nat)
deriving DecidableEq, Repr

/-- A metadata dictionary: string-keyed, first binding wins on lookup. -/
abbrev Metadata := List (String × MetaValue)

/-- Python dict update {**m, k: v}: the result maps k to v and every other
key to its value in m.  (Key order is irrelevant to the model: the code
only ever looks metadata up by key.) -/
def metaSet (m : Metadata) (k : String) (v : MetaValue) : Metadata :=
  m.filter (fun p => p.1 ≠ k) ++ [(k, v)]

/-- Insertion step of a stable descending sort by key (Python list.sort
with reverse=True, as used for rerank scores and the SQL ORDER BY ... DESC
result order). -/
def insertByDesc {α β : Type} [LinearOrder β] (key : α → β) (x : α) :
    List α → List α
  | [] => [x]
  | y :: ys => if key y ≤ key x then x :: y :: ys else y :: insertByDesc key x ys

/-- Stable descending sort by key. -/
def sortByDesc {α β : Type} [LinearOrder β] (key : α → β) : List α → List α
  | [] => []
  | x :: xs => insertByDesc key x (sortByDesc key xs)

/-! ## PineconeService (src/app/v1/services/pinecone_service.py)

All tenants share one index and one namespace; isolation is purely the
user_id metadata field and the query filter on it. -/

/-- One record as stored in the shared Pinecone namespace. -/
structure VectorRecord where
  id : String
  values : List ℚ
  metadata : Metadata
deriving DecidableEq, Repr

/-- One entry of the chunks_data list handed to upsert_chunks. -/
structure ChunkData where
  chunk_id : String
  document_id : String
  chunk_index : Nat
  embedding : List ℚ
  metadata : Metadata
deriving DecidableEq, Repr

/-- The deterministic vector id scheme: f"{user_id}_{document_id}_chunk_{chunk_index}". -/
def chunkVectorId (user_id document_id : String) (chunk_index : Nat) : String :=
  user_id ++ "_" ++ document_id ++ "_chunk_" ++ toString chunk_index

/-- PineconeService.upsert_chunks: the records written to the index for one
call.  Every record gets the owning user_id stamped into its metadata
({**chunk["metadata"], "user_id": user_id}).  The actual write happens in
batches of at most 100 vectors; batching does not change record contents. -/
def upsert_chunks (user_id : String) (chunks_data : List ChunkData) :
    List VectorRecord :=
  chunks_data.map (fun chunk =>
    { id := chunkVectorId user_id chunk.document_id chunk.chunk_index,
      values := chunk.embedding,
      metadata := metaSet chunk.metadata "user_id" (MetaValue.str user_id) })

/-- The metadata filter built by query_similar: mandatory user_id equality,
plus a document_id $in clause when a non-empty document_ids list is given. -/
def matchesFilter (user_id : String) (document_ids : Option (List String))
    (r : VectorRecord) : Bool :=
  decide (List.lookup "user_id" r.metadata = some (MetaValue.str user_id)) &&
  (match document_ids with
   | some ids =>
     if ids.length ≠ 0 then
       match List.lookup "document_id" r.metadata with
       | some (MetaValue.str d) => ids.contains d
       | _ => false
     else true
   | none => true)

/-- A match returned by the index query (pinecone match: score + metadata). -/
structure QueryMatch where
  score : ℚ
  metadata : Metadata
deriving DecidableEq, Repr

/-- PineconeService.query_similar: the index returns the top_k records
satisfying the filter, ranked by similarity score descending.  sim is the
similarity oracle of the query embedding against a stored record;
index_failure models the pinecone client raising (the code re-raises). -/
def query_similar (store : List VectorRecord) (sim : VectorRecord → ℚ)
    (user_id : String) (top_k : Nat) (document_ids : Option (List String))
    (index_failure : Option String) : Except String (List QueryMatch) :=
  match index_failure with
  | some e => Except.error e
  | none =>
    Except.ok
      ((sortByDesc (fun m => m.score)
          ((store.filter (matchesFilter user_id document_ids)).map
            (fun r => { score := sim r, metadata := r.metadata }))).take top_k)

/-! ## RAGService (src/app/v1/services/rag_service.py) -/

/-- One row of the document_chunks table, as read back by
_get_full_chunk_text. -/
structure ChunkRow where
  document_id : String
  chunk_index : Nat
  chunk_text : String
deriving DecidableEq, Repr

/-- A sources entry of the query result.  Field values are whatever the
metadata dictionary held (the code does not coerce them). -/
structure SourceItem where
  document_id : MetaValue
  filename : MetaValue
  chunk_index : MetaValue
  page_number : Option MetaValue
  score : ℚ
  preview : String
deriving DecidableEq, Repr

/-- The dictionary RAGService.query returns (response_time_ms omitted). -/
structure QueryResult where
  query : String
  answer : String
  sources : List SourceItem
  confidence : ℚ
  reranked : Bool
deriving DecidableEq, Repr

/-- Observable side effects of one RAGService.query run: the top_k value
passed to the index (none if no index query was issued), whether
_rerank_results was invoked, and whether _generate_answer was invoked. -/
structure QueryTrace where
  requested_pool : Option Nat
  rerank_invoked : Bool
  synth_invoked : Bool
deriving DecidableEq, Repr

/-- The external capabilities one RAGService.query run interacts with. -/
structure RagEnv where
  embed_query : String → Except String (List ℚ)
  store : List VectorRecord
  sim : List ℚ → VectorRecord → ℚ
  index_failure : Option String
  reranker_available : Bool
  rerank_predict : List (String × String) → Except String (List ℚ)
  groq_client : Option (String → String → Except String String)
  db : Option (List ChunkRow)

/-- search_k = top_k * 4 if (use_reranking and RAGService._reranker) else top_k. -/
def search_k_value (top_k : Nat) (use_reranking reranker_available : Bool) : Nat :=
  if use_reranking && reranker_available then top_k * 4 else top_k

/-- The pool size actually passed to query_similar: min(search_k, 20). -/
def requested_pool (top_k : Nat) (use_reranking reranker_available : Bool) : Nat :=
  min (search_k_value top_k use_reranking reranker_available) 20

/-- metadata[k]: KeyError when the key is absent. -/
def getMeta (m : Metadata) (k : String) : Except String MetaValue :=
  match List.lookup k m with
  | some v => Except.ok v
  | none => Except.error ("KeyError: " ++ k)

/-- metadata["chunk_text"] used as a string (joined into the context /
sliced for the preview): TypeError when it is not one. -/
def getMetaChunkText (m : Metadata) : Except String String :=
  match List.lookup "chunk_text" m with
  | some (MetaValue.str s) => Except.ok s
  | some _ => Except.error "TypeError: chunk_text is not a string"
  | none => Except.error "KeyError: chunk_text"

/-- RAGService._get_full_chunk_text: resolve the full chunk text from the
relational store; any failure inside the lookup (including a missing row or
missing metadata keys) falls back to the 200-char preview held in the
metadata. -/
def get_full_chunk_text (db : Option (List ChunkRow)) (m : QueryMatch) :
    Except String String :=
  match db with
  | none => getMetaChunkText m.metadata
  | some rows =>
    match List.lookup "document_id" m.metadata,
          List.lookup "chunk_index" m.metadata with
    | some (MetaValue.str did), some (MetaValue.nat ci) =>
      match rows.find? (fun c => decide (c.document_id = did) && decide (c.chunk_index = ci)) with
      | some c => Except.ok c.chunk_text
      | none => getMetaChunkText m.metadata
    | _, _ => getMetaChunkText m.metadata

/-- Building one sources entry inside the query loop; a missing metadata
key raises (KeyError) out of the loop. -/
def build_source (m : QueryMatch) : Except String SourceItem := do
  let did ← getMeta m.metadata "document_id"
  let fn ← getMeta m.metadata "filename"
  let ci ← getMeta m.metadata "chunk_index"
  let preview ← getMetaChunkText m.metadata
  Except.ok
    { document_id := did, filename := fn, chunk_index := ci,
      page_number := List.lookup "page_number" m.metadata,
      score := m.score, preview := preview.take 150 ++ "..." }

/-- The for-loop over the kept matches: collect context parts (full chunk
texts) and sources entries, propagating any exception. -/
def assemble_sources (db : Option (List ChunkRow)) :
    List QueryMatch → Except String (List String × List SourceItem)
  | [] => Except.ok ([], [])
  | m :: ms => do
    let t ← get_full_chunk_text db m
    let s ← build_source m
    let (ts, ss) ← assemble_sources db ms
    Except.ok (t :: ts, s :: ss)

/-- The fixed system prompt handed to the synthesizer. -/
def rag_system_prompt : String :=
  "You are a helpful AI assistant that answers questions based on the provided document context.\n\nRules:\n1. ONLY use information from the provided context\n2. If the context doesn\x27t contain enough information to answer, say \"I don\x27t have enough information in the documents to answer that question.\"\n3. Be concise and accurate\n4. If you reference specific information, mention which document or section it came from\n5. Use a professional but friendly tone"

/-- The user prompt assembled from context and question. -/
def rag_user_prompt (context query : String) : String :=
  "Context from documents:\n\n" ++ context ++
  "\n\n---\n\nQuestion: " ++ query ++
  "\n\nPlease provide a clear and concise answer based on the context above."

/-- RAGService._generate_answer: never raises.  A missing client and a
failing completion call both degrade to an in-band error string. -/
def generate_answer (groq_client : Option (String → String → Except String String))
    (query context : String) : String :=
  match groq_client with
  | none => "Error: Groq API client not initialized. Please check your GROQ_API_KEY."
  | some complete =>
    match complete rag_system_prompt (rag_user_prompt context query) with
    | Except.ok text => pyStrip text
    | Except.error e => "Error generating answer: " ++ e

/-- The body of RAGService._rerank_results: build (query, chunk_text)
pairs, score them in one predict call, stable-sort descending by score,
keep top_k. -/
def rerank_body (predict : List (String × String) → Except String (List ℚ))
    (query : String) (mts : List QueryMatch) (top_k : Nat) :
    Except String (List QueryMatch) := do
  let texts ← mts.mapM (fun m => getMetaChunkText m.metadata)
  let scores ← predict (texts.map (fun t => (query, t)))
  let scored := mts.zip scores
  Except.ok (((sortByDesc (fun p => p.2) scored).take top_k).map Prod.fst)

/-- RAGService._rerank_results: any failure falls back to the first top_k
matches in original order (the caller still treats the list as reranked). -/
def rerank_results (predict : List (String × String) → Except String (List ℚ))
    (query : String) (mts : List QueryMatch) (top_k : Nat) : List QueryMatch :=
  match rerank_body predict query mts top_k with
  | Except.ok l => l
  | Except.error _ => mts.take top_k

/-- The catch-all error response of RAGService.query. -/
def error_result (query_text e : String) : QueryResult :=
  { query := query_text,
    answer := "An error occurred while processing your query: " ++ e,
    sources := [], confidence := 0, reranked := false }

/-- The fixed zero-candidate response of RAGService.query. -/
def no_info_result (query_text : String) : QueryResult :=
  { query := query_text,
    answer := "I couldn\x27t find any relevant information in your documents to answer this question.",
    sources := [], confidence := 0, reranked := false }

/-- The retrieval step of RAGService.query: query_similar at the computed
pool size. -/
def retrieved (env : RagEnv) (user_id : String) (qemb : List ℚ)
    (document_ids : Option (List String)) (top_k : Nat) (use_reranking : Bool) :
    Except String (List QueryMatch) :=
  query_similar env.store (env.sim qemb) user_id
    (requested_pool top_k use_reranking env.reranker_available)
    document_ids env.index_failure

/-- The rerank decision of RAGService.query: use_reranking and
RAGService._reranker and len(matches) >= 3. -/
def rerank_decision (env : RagEnv) (use_reranking : Bool) (n : Nat) : Bool :=
  use_reranking && env.reranker_available && decide (3 ≤ n)

/-- The candidate list kept after the rerank decision: the reranked list,
or the first top_k matches in original similarity order. -/
def kept_matches (env : RagEnv) (query_text : String) (top_k : Nat)
    (use_reranking : Bool) (mts : List QueryMatch) : List QueryMatch :=
  if rerank_decision env use_reranking mts.length then
    rerank_results env.rerank_predict query_text mts top_k
  else mts.take top_k

/-- RAGService.query.  The user-stats update at the end only touches the
relational store and never the returned dictionary (its own try/except
swallows failures), so it is not modelled. -/
def rag_query (env : RagEnv) (user_id query_text : String)
    (document_ids : Option (List String)) (top_k : Nat) (use_reranking : Bool) :
    QueryResult × QueryTrace :=
  match env.embed_query query_text with
  | Except.error e =>
    (error_result query_text e,
     { requested_pool := none, rerank_invoked := false, synth_invoked := false })
  | Except.ok qemb =>
    let pool := requested_pool top_k use_reranking env.reranker_available
    match retrieved env user_id qemb document_ids top_k use_reranking with
    | Except.error e =>
      (error_result query_text e,
       { requested_pool := some pool, rerank_invoked := false, synth_invoked := false })
    | Except.ok mts =>
      if mts.length = 0 then
        (no_info_result query_text,
         { requested_pool := some pool, rerank_invoked := false, synth_invoked := false })
      else
        let doRerank := rerank_decision env use_reranking mts.length
        let kept := kept_matches env query_text top_k use_reranking mts
        match assemble_sources env.db kept with
        | Except.error e =>
          (error_result query_text e,
           { requested_pool := some pool, rerank_invoked := doRerank, synth_invoked := false })
        | Except.ok (context_parts, sources) =>
          let context := String.intercalate "\n\n---\n\n" context_parts
          let answer := generate_answer env.groq_client query_text context
          let top_scores := (kept.take 3).map (fun m => m.score)
          let confidence : ℚ :=
            if top_scores.length = 0 then 0
            else top_scores.sum / (top_scores.length : ℚ)
          ({ query := query_text, answer := answer, sources := sources,
             confidence := confidence, reranked := doRerank },
           { requested_pool := some pool, rerank_invoked := doRerank, synth_invoked := true })

/-! ## DocumentProcessor (src/app/v1/services/document_processor.py) -/

/-- Document lifecycle status (models.database.DocumentStatus). -/
inductive DocStatus where
  | processing
  | completed
  | failed
deriving DecidableEq, Repr

/-- The fields of a documents row that process_document reads or writes. -/
structure DocRecord where
  document_id : String
  filename : String
  file_size : Nat
  page_count : Option Nat
  word_count : Option Nat
  chunk_count : Option Nat
  status : DocStatus
  error_message : Option String
deriving DecidableEq, Repr

/-- The extraction metadata dict returned by TextExtractor.extract_text
(only page_count is consumed by process_document). -/
structure ExtractionMeta where
  page_count : Option Nat
deriving DecidableEq, Repr

/-- The external capabilities of one process_document run. -/
structure ProcEnv where
  extract_text : Except String (String × ExtractionMeta)
  split_text : String → List String
  embed_batch : List String → Except String (List (List ℚ))
  upsert_failure : Option String

/-- DocumentProcessor._estimate_page: only PDFs with a known non-zero page
count get an estimate (chunk_idx // 2 + 1, clamped to page_count). -/
def estimate_page (chunk_idx : Nat) (file_type : String) (m : ExtractionMeta) :
    Option Nat :=
  if file_type = "PDF" then
    match m.page_count with
    | some pc => if pc ≠ 0 then some (min (chunk_idx / 2 + 1) pc) else none
    | none => none
  else none

/-- The Pinecone metadata payload built for one chunk: page_number is added
only when present, never as a null value. -/
def chunk_vector_metadata (document_id filename file_type : String)
    (idx : Nat) (chunk_text : String) (created_at : String)
    (page_number : Option Nat) : Metadata :=
  [("document_id", MetaValue.str document_id),
   ("filename", MetaValue.str filename),
   ("file_type", MetaValue.str file_type),
   ("chunk_index", MetaValue.nat idx),
   ("chunk_text", MetaValue.str (chunk_text.take 200)),
   ("created_at", MetaValue.str created_at)] ++
  (match page_number with
   | some p => [("page_number", MetaValue.nat p)]
   | none => [])

/-- The try-block of DocumentProcessor.process_document, returning the
completed document row or the exception message.  The relational chunk-row
inserts do not touch the document row and are not modelled. -/
def process_body (env : ProcEnv) (document : Option DocRecord)
    (file_type : String) : Except String DocRecord :=
  match env.extract_text with
  | Except.error e => Except.error e
  | Except.ok (text, doc_metadata) =>
    if text = "" ∨ (pyStrip text).length < 10 then
      Except.error "No text content extracted from document"
    else
      let chunks := env.split_text text
      match env.embed_batch chunks with
      | Except.error e => Except.error e
      | Except.ok _embeddings =>
        if chunks.length ≠ 0 ∧ document = none then
          Except.error "AttributeError: NoneType object has no attribute filename"
        else
          match env.upsert_failure with
          | some e => Except.error e
          | none =>
            match document with
            | none =>
              Except.error "AttributeError: NoneType object has no attribute status"
            | some d =>
              Except.ok { d with status := DocStatus.completed,
                                 page_count := doc_metadata.page_count,
                                 word_count := some (pyWords text).length,
                                 chunk_count := some chunks.length }

/-- Outcome of process_document: the final state of the document row and
the exception the call re-raises, if any. -/
structure ProcResult where
  doc : Option DocRecord
  raised : Option String
deriving DecidableEq, Repr

/-- DocumentProcessor.process_document: on any exception the except-branch
re-fetches the document row and, when it exists, marks it failed with the
error message truncated to 500 characters, then re-raises. -/
def process_document (env : ProcEnv) (document : Option DocRecord)
    (file_type : String) : ProcResult :=
  match process_body env document file_type with
  | Except.ok d => { doc := some d, raised := none }
  | Except.error e =>
    match document with
    | some d =>
      { doc := some { d with status := DocStatus.failed,
                             error_message := some (truncate500 e) },
        raised := some e }
    | none => { doc := none, raised := some e }

/-! ## ChatService (src/app/v1/services/chat_service.py) -/

/-- The fields of a chat_messages row that matter for ordering. -/
structure ChatMessageRec where
  role : String
  content : String
  created_at : Nat
deriving DecidableEq, Repr

/-- The timestamp adjustment in send_message: if the captured assistant
timestamp is not strictly after the user timestamp, force it one
microsecond later. -/
def adjusted_assistant_time (user_time raw_assistant_time : Nat) : Nat :=
  if raw_assistant_time ≤ user_time then user_time + 1 else raw_assistant_time

/-- The two message rows send_message persists for one exchange, given the
two datetime.utcnow() captures and the RAG answer. -/
def send_message_records (user_time raw_assistant_time : Nat)
    (message answer : String) : ChatMessageRec × ChatMessageRec :=
  ({ role := "user", content := message, created_at := user_time },
   { role := "assistant", content := answer,
     created_at := adjusted_assistant_time user_time raw_assistant_time })

/-- The fields of a chat_sessions row that pagination reads. -/
structure SessionRow where
  session_id : String
  user_id : String
  updated_at : Nat
deriving DecidableEq, Repr

/-- The fields of a chat_messages row that pagination reads. -/
structure MessageRow where
  message_id : String
  session_id : String
  created_at : Nat
deriving DecidableEq, Repr

/-- The cursor argument as the code sees it: absent, a string
datetime.fromisoformat rejects (the ValueError is swallowed and no filter
is applied), or a string parsing to a timestamp. -/
inductive CursorArg where
  | absent
  | invalid (s : String)
  | parsed (t : Nat)
deriving DecidableEq, Repr

/-- The cursor filter applied to a row key: strictly-less-than the parsed
cursor timestamp, or no restriction. -/
def cursor_filter (c : CursorArg) (key : Nat) : Bool :=
  match c with
  | CursorArg.parsed t => decide (key < t)
  | _ => true

/-- The pagination core shared verbatim by get_sessions and get_messages:
order the filtered rows by key descending (ORDER BY ... DESC), fetch
limit+1 rows to detect has_more, truncate to limit.  Returns the kept rows
(still newest-first) and the has_more flag. -/
def fetch_desc_page {α : Type} (key : α → Nat) (rows : List α) (limit : Nat) :
    List α × Bool :=
  let fetched := (sortByDesc key rows).take (limit + 1)
  let has_more := decide (limit < fetched.length)
  (if has_more then fetched.take limit else fetched, has_more)

/-- What ChatService.get_sessions returns (the per-session last_message
preview enrichment does not affect pagination and is not modelled). -/
structure SessionsPage where
  sessions : List SessionRow
  total : Nat
  has_more : Bool
  cursor : Option Nat
deriving DecidableEq, Repr

/-- ChatService.get_sessions: filter to the tenant, apply the cursor
filter, order by updated_at descending, fetch limit+1 rows to detect
has_more, truncate to limit, and emit the timestamp of the last row as the
cursor when more remain. -/
def get_sessions (db : List SessionRow) (user_id : String) (limit : Nat)
    (cursor : CursorArg) : SessionsPage :=
  let base := db.filter (fun s => decide (s.user_id = user_id))
  let filtered := base.filter (fun s => cursor_filter cursor s.updated_at)
  let fp := fetch_desc_page (fun s => s.updated_at) filtered limit
  { sessions := fp.1,
    total := base.length,
    has_more := fp.2,
    cursor := if fp.2 then (fp.1.getLast?).map (fun s => s.updated_at) else none }

/-- What ChatService.get_messages returns. -/
structure MessagesPage where
  messages : List MessageRow
  total : Nat
  has_more : Bool
  cursor : Option Nat
deriving DecidableEq, Repr

/-- ChatService.get_messages: after the tenant-scoped session ownership
check (None when absent), paginate the messages of the session by created_at
descending, truncate to limit, then reverse into chronological order; the
next cursor is the timestamp of the first (oldest) returned row when more
remain. -/
def get_messages (sessionsDb : List SessionRow) (messagesDb : List MessageRow)
    (user_id session_id : String) (limit : Nat) (cursor : CursorArg) :
    Option MessagesPage :=
  match sessionsDb.find? (fun s =>
      decide (s.session_id = session_id) && decide (s.user_id = user_id)) with
  | none => none
  | some _ =>
    let base := messagesDb.filter (fun m => decide (m.session_id = session_id))
    let filtered := base.filter (fun m => cursor_filter cursor m.created_at)
    let fp := fetch_desc_page (fun m => m.created_at) filtered limit
    let result := fp.1.reverse
    some { messages := result,
           total := base.length,
           has_more := fp.2,
           cursor := if fp.2 then (result.head?).map (fun m => m.created_at) else none }

/-- The session rows matching the tenant and cursor filters (what the
limit+1 fetch of get_sessions draws from). -/
def matched_sessions (db : List SessionRow) (user_id : String)
    (cursor : CursorArg) : Nat :=
  ((db.filter (fun s => decide (s.user_id = user_id))).filter
    (fun s => cursor_filter cursor s.updated_at)).length

/-- The message rows of the session matching the cursor filter. -/
def matched_messages (messagesDb : List MessageRow) (session_id : String)
    (cursor : CursorArg) : Nat :=
  ((messagesDb.filter (fun m => decide (m.session_id = session_id))).filter
    (fun m => cursor_filter cursor m.created_at)).length

/-! ## Concrete instances used to exercise the theorems -/

/-- A chunks_data entry whose metadata does not yet name a tenant. -/
def demoChunk : ChunkData :=
  { chunk_id := "c0", document_id := "d1", chunk_index := 0, embedding := [],
    metadata := [("document_id", MetaValue.str "d1")] }

/-- A stored record owned by tenant "a". -/
def recA : VectorRecord :=
  { id := "a_d1_chunk_0", values := [],
    metadata := [("document_id", MetaValue.str "d1"),
                 ("filename", MetaValue.str "f.txt"),
                 ("chunk_index", MetaValue.nat 0),
                 ("chunk_text", MetaValue.str "alpha text"),
                 ("user_id", MetaValue.str "a")] }

/-- A stored record owned by tenant "b". -/
def recB : VectorRecord :=
  { id := "b_d2_chunk_0", values := [],
    metadata := [("document_id", MetaValue.str "d2"),
                 ("filename", MetaValue.str "g.txt"),
                 ("chunk_index", MetaValue.nat 0),
                 ("chunk_text", MetaValue.str "beta text"),
                 ("user_id", MetaValue.str "b")] }

/-- A two-tenant index. -/
def demoStore : List VectorRecord := [recA, recB]

/-- A constant similarity oracle. -/
def demoSim : List ℚ → VectorRecord → ℚ := fun _ _ => 1

/-- A fully-populated stored record for tenant uid. -/
def mkRec (uid did : String) (idx : Nat) (txt : String) : VectorRecord :=
  { id := uid ++ "_" ++ did ++ "_chunk_" ++ toString idx, values := [],
    metadata := [("document_id", MetaValue.str did),
                 ("filename", MetaValue.str "f.txt"),
                 ("chunk_index", MetaValue.nat idx),
                 ("chunk_text", MetaValue.str txt),
                 ("user_id", MetaValue.str uid)] }

/-- A query run in which only the answer synthesis fails. -/
def c2env : RagEnv :=
  { embed_query := fun _ => Except.ok [],
    store := [mkRec "u" "d1" 0 "hello world"],
    sim := fun _ _ => 1,
    index_failure := none,
    reranker_available := false,
    rerank_predict := fun _ => Except.error "unused",
    groq_client := some (fun _ _ => Except.error "boom"),
    db := none }

/-- A query run in which query embedding fails. -/
def embedFailEnv : RagEnv :=
  { embed_query := fun _ => Except.error "embedding down",
    store := [],
    sim := fun _ _ => 0,
    index_failure := none,
    reranker_available := false,
    rerank_predict := fun _ => Except.error "unused",
    groq_client := none,
    db := none }

/-- A query run against an empty index. -/
def c3env : RagEnv :=
  { embed_query := fun _ => Except.ok [],
    store := [],
    sim := fun _ _ => 0,
    index_failure := none,
    reranker_available := true,
    rerank_predict := fun _ => Except.error "unused",
    groq_client := some (fun _ _ => Except.ok "ans"),
    db := none }

/-- A query run that retrieves a single candidate while reranking is
requested and available. -/
def c4env : RagEnv :=
  { embed_query := fun _ => Except.ok [],
    store := [mkRec "u" "d1" 0 "one text"],
    sim := fun _ _ => 1,
    index_failure := none,
    reranker_available := true,
    rerank_predict := fun _ => Except.error "predict should not run",
    groq_client := some (fun _ _ => Except.ok "ans"),
    db := none }

/-- A query run with three candidates whose reranker scoring call fails. -/
def c10env : RagEnv :=
  { embed_query := fun _ => Except.ok [],
    store := [mkRec "u" "d1" 0 "one text", mkRec "u" "d1" 1 "two text",
              mkRec "u" "d1" 2 "three text"],
    sim := fun _ _ => 1,
    index_failure := none,
    reranker_available := true,
    rerank_predict := fun _ => Except.error "cross encoder crashed",
    groq_client := some (fun _ _ => Except.ok "ans"),
    db := none }

/-- The three matches the c10env query retrieves (constant similarity, so
the stable sort keeps store order). -/
def c10matches : List QueryMatch :=
  [{ score := 1, metadata := (mkRec "u" "d1" 0 "one text").metadata },
   { score := 1, metadata := (mkRec "u" "d1" 1 "two text").metadata },
   { score := 1, metadata := (mkRec "u" "d1" 2 "three text").metadata }]

/-- The context parts the c10env query assembles. -/
def c10parts : List String := ["one text", "two text", "three text"]

/-- The sources entries the c10env query assembles. -/
def c10srcs : List SourceItem :=
  [{ document_id := MetaValue.str "d1", filename := MetaValue.str "f.txt",
     chunk_index := MetaValue.nat 0, page_number := none, score := 1,
     preview := "one text..." },
   { document_id := MetaValue.str "d1", filename := MetaValue.str "f.txt",
     chunk_index := MetaValue.nat 1, page_number := none, score := 1,
     preview := "two text..." },
   { document_id := MetaValue.str "d1", filename := MetaValue.str "f.txt",
     chunk_index := MetaValue.nat 2, page_number := none, score := 1,
     preview := "three text..." }]

/-- A document row mid-ingestion. -/
def demoDoc : DocRecord :=
  { document_id := "d1", filename := "f.txt", file_size := 10,
    page_count := none, word_count := none, chunk_count := none,
    status := DocStatus.processing, error_message := none }

/-- An ingestion run whose text extraction fails. -/
def c7env : ProcEnv :=
  { extract_text := Except.error "boom failure",
    split_text := fun _ => [],
    embed_batch := fun _ => Except.ok [],
    upsert_failure := none }

/-- The extracted text of the zero-chunk ingestion run. -/
def c6text : String := "0123456789abc"

/-- An ingestion run where extraction succeeds with a long-enough text but
the splitter yields zero chunks. -/
def c6env : ProcEnv :=
  { extract_text := Except.ok (c6text, { page_count := none }),
    split_text := fun _ => [],
    embed_batch := fun _ => Except.ok [],
    upsert_failure := none }

/-- Five sessions of one tenant with distinct update timestamps. -/
def wsDb : List SessionRow :=
  [⟨"s1", "u", 1⟩, ⟨"s2", "u", 2⟩, ⟨"s3", "u", 3⟩, ⟨"s4", "u", 4⟩,
   ⟨"s5", "u", 5⟩]

/-- Three messages of session "s1". -/
def wmDb : List MessageRow :=
  [⟨"m1", "s1", 1⟩, ⟨"m2", "s1", 2⟩, ⟨"m3", "s1", 3⟩]

/-! ## Helper lemmas -/

theorem mem_insertByDesc {α β : Type} [LinearOrder β] (key : α → β) (x a : α)
    (l : List α) : a ∈ insertByDesc key x l ↔ a = x ∨ a ∈ l := by
  induction l with
  | nil => simp [insertByDesc]
  | cons y ys ih =>
    by_cases h : key y ≤ key x
    · simp [insertByDesc, h]
    · simp only [insertByDesc, if_neg h, List.mem_cons, ih]
      tauto

theorem mem_sortByDesc {α β : Type} [LinearOrder β] (key : α → β) (a : α)
    (l : List α) : a ∈ sortByDesc key l ↔ a ∈ l := by
  induction l with
  | nil => simp [sortByDesc]
  | cons x xs ih => simp [sortByDesc, mem_insertByDesc, ih]

theorem length_insertByDesc {α β : Type} [LinearOrder β] (key : α → β) (x : α)
    (l : List α) : (insertByDesc key x l).length = l.length + 1 := by
  induction l with
  | nil => simp [insertByDesc]
  | cons y ys ih =>
    by_cases h : key y ≤ key x
    · simp [insertByDesc, h]
    · simp [insertByDesc, h, ih]

theorem length_sortByDesc {α β : Type} [LinearOrder β] (key : α → β)
    (l : List α) : (sortByDesc key l).length = l.length := by
  induction l with
  | nil => rfl
  | cons x xs ih => simp [sortByDesc, length_insertByDesc, ih]

theorem pairwise_insertByDesc {α β : Type} [LinearOrder β] (key : α → β)
    (x : α) (l : List α)
    (h : List.Pairwise (fun a b => key b ≤ key a) l) :
    List.Pairwise (fun a b => key b ≤ key a) (insertByDesc key x l) := by
  induction l with
  | nil => simp [insertByDesc]
  | cons y ys ih =>
    rcases List.pairwise_cons.1 h with ⟨hy, hys⟩
    by_cases hc : key y ≤ key x
    · rw [insertByDesc, if_pos hc]
      refine List.pairwise_cons.2 ⟨?_, h⟩
      intro b hb
      rcases List.mem_cons.1 hb with rfl | hb
      · exact hc
      · exact (hy b hb).trans hc
    · rw [insertByDesc, if_neg hc]
      refine List.pairwise_cons.2 ⟨?_, ih hys⟩
      intro b hb
      rcases (mem_insertByDesc key x b ys).1 hb with rfl | hb
      · exact le_of_not_le hc
      · exact hy b hb

theorem pairwise_sortByDesc {α β : Type} [LinearOrder β] (key : α → β)
    (l : List α) :
    List.Pairwise (fun a b => key b ≤ key a) (sortByDesc key l) := by
  induction l with
  | nil => simp [sortByDesc]
  | cons x xs ih => exact pairwise_insertByDesc key x _ ih

theorem pairwise_key_getLast {α β : Type} [LinearOrder β] (key : α → β)
    (l : List α) (h : List.Pairwise (fun a b => key b ≤ key a) l)
    (z : α) (hz : l.getLast? = some z) : ∀ x ∈ l, key z ≤ key x := by
  induction l with
  | nil => simp at hz
  | cons a t ih =>
    cases t with
    | nil =>
      simp only [List.getLast?_singleton, Option.some.injEq] at hz
      subst hz
      intro x hx
      simp only [List.mem_singleton] at hx
      subst hx
      exact le_refl _
    | cons b t2 =>
      rw [List.getLast?_cons_cons] at hz
      rcases List.pairwise_cons.1 h with ⟨ha, ht⟩
      intro x hx
      rcases List.mem_cons.1 hx with rfl | hx
      · exact ha z (List.mem_of_mem_getLast? hz)
      · exact ih ht hz x hx

theorem lookup_metaSet (m : Metadata) (k : String) (v : MetaValue) :
    List.lookup k (metaSet m k v) = some v := by
  induction m with
  | nil => simp [metaSet, List.lookup]
  | cons p t ih =>
    unfold metaSet at ih ⊢
    by_cases h : p.1 = k
    · simpa [List.filter_cons, h] using ih
    · simp only [List.filter_cons, decide_eq_true_eq]
      rw [if_pos h]
      rw [List.cons_append]
      show List.lookup k (⟨p.1, p.2⟩ :: (t.filter (fun q => q.1 ≠ k) ++ [(k, v)])) = some v
      rw [List.lookup_cons]
      have hne : (k == p.1) = false := beq_eq_false_iff_ne.2 (fun hh => h hh.symm)
      simp only [hne]
      exact ih

theorem matchesFilter_user_id (uid : String) (dids : Option (List String))
    (r : VectorRecord) (h : matchesFilter uid dids r = true) :
    List.lookup "user_id" r.metadata = some (MetaValue.str uid) := by
  unfold matchesFilter at h
  rw [Bool.and_eq_true] at h
  exact of_decide_eq_true h.1

/-! ## Claims -/

/-- C1 (tenant isolation): every vector record written by upsert_chunks
carries the owning tenant id (user_id) in its metadata; every match a
query_similar call issued under tenant uidA returns carries uidA as its
metadata tenant id; hence for uidA ≠ uidB, such a query never returns a
match whose metadata tenant id is uidB. -/
theorem c1_tenant_isolation
    (user_id : String) (chunks_data : List ChunkData)
    (store : List VectorRecord) (sim : VectorRecord → ℚ) (top_k : Nat)
    (dids : Option (List String)) (uidA uidB : String) (ms : List QueryMatch)
    (hne : uidA ≠ uidB)
    (hq : query_similar store sim uidA top_k dids none = Except.ok ms) :
    (∀ v ∈ upsert_chunks user_id chunks_data,
        List.lookup "user_id" v.metadata = some (MetaValue.str user_id))
    ∧ (∀ m ∈ ms, List.lookup "user_id" m.metadata = some (MetaValue.str uidA))
    ∧ (∀ m ∈ ms, List.lookup "user_id" m.metadata ≠ some (MetaValue.str uidB)) := by
  have hup : ∀ v ∈ upsert_chunks user_id chunks_data,
      List.lookup "user_id" v.metadata = some (MetaValue.str user_id) := by
    intro v hv
    simp only [upsert_chunks, List.mem_map] at hv
    obtain ⟨c, _, rfl⟩ := hv
    exact lookup_metaSet c.metadata "user_id" (MetaValue.str user_id)
  have hms : ms = (sortByDesc (fun m => m.score)
      ((store.filter (matchesFilter uidA dids)).map
        (fun r => { score := sim r, metadata := r.metadata }))).take top_k := by
    unfold query_similar at hq
    exact (Except.ok.inj hq).symm
  have hq2 : ∀ m ∈ ms, List.lookup "user_id" m.metadata = some (MetaValue.str uidA) := by
    intro m hm
    rw [hms] at hm
    have hm2 := List.mem_of_mem_take hm
    rw [mem_sortByDesc] at hm2
    simp only [List.mem_map] at hm2
    obtain ⟨r, hr, rfl⟩ := hm2
    have hf := (List.mem_filter.1 hr).2
    exact matchesFilter_user_id uidA dids r hf
  refine ⟨hup, hq2, ?_⟩
  intro m hm h
  rw [hq2 m hm] at h
  exact hne (by simpa using h)

/-- C1 witness: at a two-tenant index, the records of one upsert_chunks
call all carry tenant "a", and a query issued under "a" (which returns
exactly the "a" record) never returns a match carrying tenant "b". -/
theorem c1_tenant_isolation_witness :
    (∀ v ∈ upsert_chunks "a" [demoChunk],
        List.lookup "user_id" v.metadata = some (MetaValue.str "a"))
    ∧ (∀ m ∈ [({ score := 1, metadata := recA.metadata } : QueryMatch)],
        List.lookup "user_id" m.metadata ≠ some (MetaValue.str "b")) := by
  have h := c1_tenant_isolation "a" [demoChunk] demoStore (demoSim []) 5 none "a" "b"
    [{ score := 1, metadata := recA.metadata }] (by decide) rfl
  exact ⟨h.1, h.2.2⟩

/-- C8 (message ordering): the assistant message send_message persists is
always created strictly after the user message; when the captured
assistant timestamp is not strictly later, it is forced to the user
timestamp plus one microsecond (the smallest increment DATETIME(6)
represents). -/
theorem c8_message_ordering (user_time raw_assistant_time : Nat)
    (message answer : String) :
    (send_message_records user_time raw_assistant_time message answer).1.created_at
      < (send_message_records user_time raw_assistant_time message answer).2.created_at
    ∧ (raw_assistant_time ≤ user_time →
        (send_message_records user_time raw_assistant_time message answer).2.created_at
          = user_time + 1) := by
  unfold send_message_records adjusted_assistant_time
  by_cases h : raw_assistant_time ≤ user_time <;> simp [h] <;> omega

/-- C8 witness: with the assistant capture (3) before the user capture (5),
the persisted assistant timestamp is forced to 6 = 5 + 1 microsecond. -/
theorem c8_message_ordering_witness :
    (send_message_records 5 3 "hi" "ans").1.created_at
      < (send_message_records 5 3 "hi" "ans").2.created_at
    ∧ (send_message_records 5 3 "hi" "ans").2.created_at = 5 + 1 :=
  ⟨(c8_message_ordering 5 3 "hi" "ans").1,
   (c8_message_ordering 5 3 "hi" "ans").2 (by decide)⟩

/-- C7 (ingestion failure handling): whenever the body of process_document
raises (after extraction begins) and the document row exists, the run
persists status = failed together with the error message truncated to at
most 500 characters, and re-raises. -/
theorem c7_failure_persists_truncated_error
    (env : ProcEnv) (d : DocRecord) (file_type e : String)
    (hfail : process_body env (some d) file_type = Except.error e) :
    (process_document env (some d) file_type).doc
        = some { d with status := DocStatus.failed,
                        error_message := some (truncate500 e) }
    ∧ (process_document env (some d) file_type).raised = some e
    ∧ (truncate500 e).length ≤ 500 := by
  unfold process_document
  rw [hfail]
  refine ⟨rfl, rfl, ?_⟩
  show (e.data.take 500).length ≤ 500
  rw [List.length_take]
  exact min_le_left _ _

/-- C7 witness: a failing extraction marks the document failed with the
truncated message persisted. -/
theorem c7_failure_witness :
    (process_document c7env (some demoDoc) "TXT").doc
        = some { demoDoc with
                 status := DocStatus.failed,
                 error_message := some (truncate500 "boom failure") }
    ∧ (truncate500 "boom failure").length ≤ 500 := by
  have h := c7_failure_persists_truncated_error c7env demoDoc "TXT" "boom failure" rfl
  exact ⟨h.1, h.2.2⟩

/-- C6 counterexample: an ingestion run whose segmentation produces zero
chunks (on a long-enough extracted text) is not treated as a failure — the
document ends up completed with chunk_count 0 and nothing raised,
contradicting the claim that it is never marked completed. -/
theorem c6_zero_chunks_counterexample :
    c6env.extract_text = Except.ok (c6text, { page_count := none })
    ∧ c6env.split_text c6text = []
    ∧ (process_document c6env (some demoDoc) "TXT").doc
        = some { demoDoc with
                 status := DocStatus.completed,
                 page_count := none, word_count := some 1, chunk_count := some 0 }
    ∧ (process_document c6env (some demoDoc) "TXT").raised = none := by
  refine ⟨rfl, rfl, ?_, rfl⟩
  rfl

/-- C6 amended: a zero-chunk segmentation result is not detected as a
failure.  Only empty or too-short extracted text is rejected; with a valid
text, zero chunks, a successful (vacuous) embedding call and no upsert
failure, process_document marks the existing document row completed with
chunk_count 0 and raises nothing. -/
theorem c6_zero_chunks_completed
    (env : ProcEnv) (d : DocRecord) (file_type text : String)
    (m : ExtractionMeta) (es : List (List ℚ))
    (hex : env.extract_text = Except.ok (text, m))
    (hguard : ¬(text = "" ∨ (pyStrip text).length < 10))
    (hsplit : env.split_text text = [])
    (hemb : env.embed_batch [] = Except.ok es)
    (hup : env.upsert_failure = none) :
    process_document env (some d) file_type
      = { doc := some { d with
                          status := DocStatus.completed,
                          page_count := m.page_count,
                          word_count := some (pyWords text).length,
                          chunk_count := some 0 },
          raised := none } := by
  unfold process_document process_body
  rw [hex]
  simp only [if_neg hguard, hsplit, hemb, hup]
  simp

/-- C6 amended witness: the concrete zero-chunk run completes. -/
theorem c6_zero_chunks_completed_witness :
    process_document c6env (some demoDoc) "TXT"
      = { doc := some { demoDoc with
                          status := DocStatus.completed,
                          page_count := none,
                          word_count := some (pyWords c6text).length,
                          chunk_count := some 0 },
          raised := none } := by
  exact c6_zero_chunks_completed c6env demoDoc "TXT" c6text { page_count := none } []
    rfl (by decide) rfl rfl rfl

/-- C2 amended (query error degradation): rag_query is total, and any
failure raised inside its body — query embedding, candidate retrieval, or
source/context assembly — is caught and degrades to the catch-all result:
the answer embeds the failure reason, sources are empty, confidence is 0
and reranked is false.  (A synthesis failure, by contrast, is caught inside
the synthesizer wrapper and keeps the computed sources and confidence; see
the counterexample.) -/
theorem c2_error_degradation (env : RagEnv) (user_id query_text : String)
    (document_ids : Option (List String)) (top_k : Nat) (use_reranking : Bool) :
    (∀ e, env.embed_query query_text = Except.error e →
       (rag_query env user_id query_text document_ids top_k use_reranking).1
         = error_result query_text e)
    ∧ (∀ qemb e, env.embed_query query_text = Except.ok qemb →
        retrieved env user_id qemb document_ids top_k use_reranking
          = Except.error e →
        (rag_query env user_id query_text document_ids top_k use_reranking).1
          = error_result query_text e)
    ∧ (∀ qemb ms e, env.embed_query query_text = Except.ok qemb →
        retrieved env user_id qemb document_ids top_k use_reranking
          = Except.ok ms →
        ms.length ≠ 0 →
        assemble_sources env.db (kept_matches env query_text top_k use_reranking ms)
          = Except.error e →
        (rag_query env user_id query_text document_ids top_k use_reranking).1
          = error_result query_text e)
    ∧ (∀ q e, error_result q e
        = { query := q,
            answer := "An error occurred while processing your query: " ++ e,
            sources := [], confidence := 0, reranked := false }) := by
  refine ⟨?_, ?_, ?_, fun q e => rfl⟩
  · intro e he
    simp only [rag_query, he]
  · intro qemb e he hr
    simp only [rag_query, he, hr]
  · intro qemb ms e he hr hlen hasm
    simp only [rag_query, he, hr, if_neg hlen, hasm]

/-- C2 counterexample: with a failing synthesizer and one retrieved
candidate, the answer embeds the failure reason but the sources list is
non-empty (and the synthesis step was reached), contradicting the claim
that any step failure yields empty sources. -/
theorem c2_synthesis_failure_counterexample :
    (rag_query c2env "u" "q" none 5 false).2.synth_invoked = true
    ∧ (rag_query c2env "u" "q" none 5 false).1.answer
        = "Error generating answer: boom"
    ∧ (rag_query c2env "u" "q" none 5 false).1.sources ≠ [] := by
  refine ⟨rfl, rfl, ?_⟩
  decide

/-- C2 witness: a failing embedding degrades to the catch-all error result. -/
theorem c2_error_degradation_witness :
    (rag_query embedFailEnv "u" "q" none 5 true).1
      = error_result "q" "embedding down" :=
  (c2_error_degradation embedFailEnv "u" "q" none 5 true).1 "embedding down" rfl

/-- C3 (zero candidates): when the index returns zero matches the query
returns the fixed no-relevant-information result — confidence 0, empty
sources, reranked false — and neither the synthesizer nor the reranker is
invoked on that path. -/
theorem c3_zero_matches (env : RagEnv) (user_id query_text : String)
    (document_ids : Option (List String)) (top_k : Nat) (use_reranking : Bool)
    (qemb : List ℚ)
    (hembed : env.embed_query query_text = Except.ok qemb)
    (hret : retrieved env user_id qemb document_ids top_k use_reranking
      = Except.ok []) :
    (rag_query env user_id query_text document_ids top_k use_reranking).1
      = no_info_result query_text
    ∧ (rag_query env user_id query_text document_ids top_k use_reranking).2.synth_invoked
      = false
    ∧ (rag_query env user_id query_text document_ids top_k use_reranking).2.rerank_invoked
      = false
    ∧ no_info_result query_text
        = { query := query_text,
            answer := "I couldn\x27t find any relevant information in your documents to answer this question.",
            sources := [], confidence := 0, reranked := false } := by
  refine ⟨?_, ?_, ?_, rfl⟩ <;> simp [rag_query, hembed, hret]

/-- C3 witness: a query against an empty index returns the fixed fallback
result without invoking synthesis. -/
theorem c3_zero_matches_witness :
    (rag_query c3env "u" "q" none 5 true).1 = no_info_result "q"
    ∧ (rag_query c3env "u" "q" none 5 true).2.synth_invoked = false := by
  have h := c3_zero_matches c3env "u" "q" none 5 true [] rfl rfl
  exact ⟨h.1, h.2.1⟩

/-- C4 (fewer than 3 candidates): with fewer than 3 retrieved candidates
the reranker is never invoked and the result reports reranked = false,
regardless of the request flag; the kept candidates are the first top_k in
original similarity order. -/
theorem c4_few_candidates (env : RagEnv) (user_id query_text : String)
    (document_ids : Option (List String)) (top_k : Nat) (use_reranking : Bool)
    (qemb : List ℚ) (ms : List QueryMatch)
    (hembed : env.embed_query query_text = Except.ok qemb)
    (hret : retrieved env user_id qemb document_ids top_k use_reranking
      = Except.ok ms)
    (hlen : ms.length < 3) :
    (rag_query env user_id query_text document_ids top_k use_reranking).1.reranked
      = false
    ∧ (rag_query env user_id query_text document_ids top_k use_reranking).2.rerank_invoked
      = false
    ∧ kept_matches env query_text top_k use_reranking ms = ms.take top_k
    ∧ (∀ parts srcs,
        assemble_sources env.db (ms.take top_k) = Except.ok (parts, srcs) →
        (rag_query env user_id query_text document_ids top_k use_reranking).1.sources
          = srcs) := by
  have hdec : rerank_decision env use_reranking ms.length = false := by
    unfold rerank_decision
    have h3 : ¬ (3 ≤ ms.length) := by omega
    simp [h3]
  have hkept : kept_matches env query_text top_k use_reranking ms = ms.take top_k := by
    unfold kept_matches
    rw [hdec]
    simp
  by_cases h0 : ms.length = 0
  · have hms : ms = [] := List.length_eq_zero.1 h0
    subst hms
    refine ⟨?_, ?_, hkept, ?_⟩
    · simp [rag_query, hembed, hret, no_info_result]
    · simp [rag_query, hembed, hret]
    · intro parts srcs hasm
      simp only [List.take_nil] at hasm
      have h2 : (Except.ok (([] : List String), ([] : List SourceItem))
            : Except String (List String × List SourceItem))
          = Except.ok (parts, srcs) := by
        rw [← hasm]
        rfl
      have h3 := Except.ok.inj h2
      injection h3 with hp hs
      subst hs
      simp [rag_query, hembed, hret, no_info_result]
  · have hne : ms ≠ [] := fun h => h0 (by simp [h])
    refine ⟨?_, ?_, hkept, ?_⟩
    · cases hasm2 : assemble_sources env.db (ms.take top_k) with
      | error e =>
        simp [rag_query, hembed, hret, if_neg h0, hne, hkept, hdec, hasm2, error_result]
      | ok pr =>
        obtain ⟨parts0, srcs0⟩ := pr
        simp [rag_query, hembed, hret, if_neg h0, hne, hkept, hdec, hasm2]
    · cases hasm2 : assemble_sources env.db (ms.take top_k) with
      | error e =>
        simp [rag_query, hembed, hret, if_neg h0, hne, hkept, hdec, hasm2]
      | ok pr =>
        obtain ⟨parts0, srcs0⟩ := pr
        simp [rag_query, hembed, hret, if_neg h0, hne, hkept, hdec, hasm2]
    · intro parts srcs hasm
      simp [rag_query, hembed, hret, if_neg h0, hne, hkept, hdec, hasm]

/-- C4 witness: one retrieved candidate with reranking requested and a
reranker available still yields reranked = false with no reranker call. -/
theorem c4_few_candidates_witness :
    (rag_query c4env "u" "q" none 5 true).1.reranked = false
    ∧ (rag_query c4env "u" "q" none 5 true).2.rerank_invoked = false := by
  have h := c4_few_candidates c4env "u" "q" none 5 true []
    [{ score := 1, metadata := (mkRec "u" "d1" 0 "one text").metadata }]
    rfl rfl (by decide)
  exact ⟨h.1, h.2.1⟩

/-- C5 amended (candidate pool size): once the query embedding succeeded,
the pool size requested from the index is min(top_k * 4, 20) when
reranking is requested and a reranker is available, and min(top_k, 20)
otherwise — the cap of 20 applies to both branches, so the non-reranking
pool equals top_k only for top_k ≤ 20. -/
theorem c5_requested_pool (env : RagEnv) (user_id query_text : String)
    (document_ids : Option (List String)) (top_k : Nat) (use_reranking : Bool)
    (qemb : List ℚ)
    (hembed : env.embed_query query_text = Except.ok qemb) :
    (rag_query env user_id query_text document_ids top_k use_reranking).2.requested_pool
      = some (if use_reranking && env.reranker_available
              then min (top_k * 4) 20 else min top_k 20) := by
  have hpool : requested_pool top_k use_reranking env.reranker_available
      = if use_reranking && env.reranker_available
        then min (top_k * 4) 20 else min top_k 20 := by
    unfold requested_pool search_k_value
    by_cases h : use_reranking && env.reranker_available <;> simp [h]
  cases hr : retrieved env user_id qemb document_ids top_k use_reranking with
  | error e => simp [rag_query, hembed, hr, hpool]
  | ok ms =>
    by_cases h0 : ms.length = 0
    · simp [rag_query, hembed, hr, h0, hpool]
    · have hne : ms ≠ [] := fun h => h0 (by simp [h])
      cases hasm : assemble_sources env.db
          (kept_matches env query_text top_k use_reranking ms) with
      | error e => simp [rag_query, hembed, hr, if_neg h0, hne, hasm, hpool]
      | ok pr =>
        obtain ⟨parts, srcs⟩ := pr
        simp [rag_query, hembed, hr, if_neg h0, hne, hasm, hpool]

/-- C5 counterexample: at top_k = 21 with reranking not requested, the pool
requested from the index is 20, not top_k = 21 — the cap of 20 is applied
on the non-reranking branch too. -/
theorem c5_pool_cap_counterexample :
    (rag_query c3env "u" "q" none 21 false).2.requested_pool = some 20
    ∧ (20 : Nat) ≠ 21 :=
  ⟨rfl, by decide⟩

/-- C5 witness: at top_k = 5 without reranking the requested pool is 5. -/
theorem c5_requested_pool_witness :
    (rag_query c3env "u" "q" none 5 false).2.requested_pool = some (min 5 20) := by
  have h := c5_requested_pool c3env "u" "q" none 5 false [] rfl
  simpa using h

/-- C10 (rerank scoring failure): when reranking is attempted (requested,
reranker available, at least 3 candidates) but the scoring call fails, the
kept candidates are the first top_k in original similarity order while the
run still reports rerank invocation and, on the success path, returns
reranked = true. -/
theorem c10_rerank_failure (env : RagEnv) (user_id query_text : String)
    (document_ids : Option (List String)) (top_k : Nat)
    (qemb : List ℚ) (ms : List QueryMatch) (e : String)
    (hembed : env.embed_query query_text = Except.ok qemb)
    (hret : retrieved env user_id qemb document_ids top_k true = Except.ok ms)
    (havail : env.reranker_available = true)
    (hlen : 3 ≤ ms.length)
    (hbody : rerank_body env.rerank_predict query_text ms top_k = Except.error e) :
    (rag_query env user_id query_text document_ids top_k true).2.rerank_invoked
      = true
    ∧ kept_matches env query_text top_k true ms = ms.take top_k
    ∧ (∀ parts srcs,
        assemble_sources env.db (ms.take top_k) = Except.ok (parts, srcs) →
        (rag_query env user_id query_text document_ids top_k true).1.sources = srcs
        ∧ (rag_query env user_id query_text document_ids top_k true).1.reranked
          = true) := by
  have hdec : rerank_decision env true ms.length = true := by
    unfold rerank_decision
    simp [havail, hlen]
  have hkept : kept_matches env query_text top_k true ms = ms.take top_k := by
    unfold kept_matches rerank_results
    rw [hdec, if_pos rfl, hbody]
  have h0 : ms.length ≠ 0 := by omega
  have hne : ms ≠ [] := fun h => h0 (by simp [h])
  refine ⟨?_, hkept, ?_⟩
  · cases hasm2 : assemble_sources env.db (ms.take top_k) with
    | error e2 =>
      simp [rag_query, hembed, hret, if_neg h0, hne, hkept, hdec, hasm2]
    | ok pr =>
      obtain ⟨parts0, srcs0⟩ := pr
      simp [rag_query, hembed, hret, if_neg h0, hne, hkept, hdec, hasm2]
  · intro parts srcs hasm
    constructor <;> simp [rag_query, hembed, hret, if_neg h0, hne, hkept, hdec, hasm]

set_option maxRecDepth 8000 in
/-- C10 witness: three candidates, failing reranker scoring — the result
still reports reranked = true and keeps the original-order sources. -/
theorem c10_rerank_failure_witness :
    (rag_query c10env "u" "q" none 5 true).2.rerank_invoked = true
    ∧ (rag_query c10env "u" "q" none 5 true).1.reranked = true := by
  have h := c10_rerank_failure c10env "u" "q" none 5 [] c10matches
    "cross encoder crashed" rfl rfl rfl (by decide) rfl
  exact ⟨h.1, (h.2.2 c10parts c10srcs rfl).2⟩

theorem fetch_desc_page_sublist {α : Type} (key : α → Nat) (rows : List α)
    (limit : Nat) :
    (fetch_desc_page key rows limit).1.Sublist (sortByDesc key rows) := by
  simp only [fetch_desc_page]
  split
  · exact (List.take_sublist _ _).trans (List.take_sublist _ _)
  · exact List.take_sublist _ _

theorem fetch_desc_page_length_le {α : Type} (key : α → Nat) (rows : List α)
    (limit : Nat) : (fetch_desc_page key rows limit).1.length ≤ limit := by
  simp only [fetch_desc_page]
  split
  · rw [List.length_take]
    omega
  · next h =>
    rw [decide_eq_true_eq] at h
    rw [List.length_take, length_sortByDesc] at h ⊢
    omega

theorem fetch_desc_page_has_more_iff {α : Type} (key : α → Nat)
    (rows : List α) (limit : Nat) :
    (fetch_desc_page key rows limit).2 = true ↔ limit < rows.length := by
  simp only [fetch_desc_page, decide_eq_true_eq]
  rw [List.length_take, length_sortByDesc]
  omega

theorem fetch_desc_page_pairwise {α : Type} (key : α → Nat) (rows : List α)
    (limit : Nat) :
    List.Pairwise (fun a b => key b ≤ key a) (fetch_desc_page key rows limit).1 :=
  List.Pairwise.sublist (fetch_desc_page_sublist key rows limit)
    (pairwise_sortByDesc key rows)

theorem fetch_desc_page_mem {α : Type} (key : α → Nat) (rows : List α)
    (limit : Nat) (x : α) (hx : x ∈ (fetch_desc_page key rows limit).1) :
    x ∈ rows :=
  (mem_sortByDesc key x rows).1 ((fetch_desc_page_sublist key rows limit).subset hx)

theorem get_sessions_length_le (db : List SessionRow) (u : String)
    (limit : Nat) (c : CursorArg) :
    (get_sessions db u limit c).sessions.length ≤ limit := by
  show (fetch_desc_page (fun s => s.updated_at)
    ((db.filter (fun s => decide (s.user_id = u))).filter
      (fun s => cursor_filter c s.updated_at)) limit).1.length ≤ limit
  exact fetch_desc_page_length_le _ _ _

theorem get_sessions_has_more_iff (db : List SessionRow) (u : String)
    (limit : Nat) (c : CursorArg) :
    (get_sessions db u limit c).has_more = true ↔ limit < matched_sessions db u c := by
  show (fetch_desc_page (fun s => s.updated_at)
    ((db.filter (fun s => decide (s.user_id = u))).filter
      (fun s => cursor_filter c s.updated_at)) limit).2 = true
    ↔ limit < ((db.filter (fun s => decide (s.user_id = u))).filter
      (fun s => cursor_filter c s.updated_at)).length
  exact fetch_desc_page_has_more_iff _ _ _

theorem get_sessions_sorted (db : List SessionRow) (u : String)
    (limit : Nat) (c : CursorArg) :
    List.Pairwise (fun a b => b.updated_at ≤ a.updated_at)
      (get_sessions db u limit c).sessions := by
  show List.Pairwise (fun a b => b.updated_at ≤ a.updated_at)
    (fetch_desc_page (fun s => s.updated_at)
      ((db.filter (fun s => decide (s.user_id = u))).filter
        (fun s => cursor_filter c s.updated_at)) limit).1
  exact fetch_desc_page_pairwise _ _ _

theorem get_sessions_mem_rows (db : List SessionRow) (u : String)
    (limit : Nat) (c : CursorArg) (x : SessionRow)
    (hx : x ∈ (get_sessions db u limit c).sessions) :
    x ∈ (db.filter (fun s => decide (s.user_id = u))).filter
      (fun s => cursor_filter c s.updated_at) := by
  have hx2 : x ∈ (fetch_desc_page (fun s => s.updated_at)
      ((db.filter (fun s => decide (s.user_id = u))).filter
        (fun s => cursor_filter c s.updated_at)) limit).1 := hx
  exact fetch_desc_page_mem _ _ _ _ hx2

theorem get_sessions_cursor_eq (db : List SessionRow) (u : String)
    (limit : Nat) (c : CursorArg) :
    (get_sessions db u limit c).cursor
      = if (get_sessions db u limit c).has_more
        then ((get_sessions db u limit c).sessions.getLast?).map
          (fun s => s.updated_at)
        else none := rfl

theorem get_sessions_cursor_some (db : List SessionRow) (u : String)
    (limit : Nat) (c : CursorArg) (t : Nat)
    (h : (get_sessions db u limit c).cursor = some t) :
    ∃ z, (get_sessions db u limit c).sessions.getLast? = some z
      ∧ z.updated_at = t := by
  rw [get_sessions_cursor_eq] at h
  by_cases hm : (get_sessions db u limit c).has_more = true
  · rw [if_pos hm] at h
    rcases Option.map_eq_some'.1 h with ⟨z, hz, ht⟩
    exact ⟨z, hz, ht⟩
  · rw [if_neg hm] at h
    cases h

theorem get_sessions_no_overlap (db : List SessionRow) (u : String)
    (limit : Nat) (c : CursorArg) (t : Nat)
    (h : (get_sessions db u limit c).cursor = some t) :
    ∀ y ∈ (get_sessions db u limit (CursorArg.parsed t)).sessions,
      y ∉ (get_sessions db u limit c).sessions := by
  intro y hy hmem
  rcases get_sessions_cursor_some db u limit c t h with ⟨z, hz, ht⟩
  have hle : z.updated_at ≤ y.updated_at :=
    pairwise_key_getLast (fun s => s.updated_at) _
      (get_sessions_sorted db u limit c) z hz y hmem
  have hy2 := get_sessions_mem_rows db u limit (CursorArg.parsed t) y hy
  have hflt := (List.mem_filter.1 hy2).2
  have hlt : y.updated_at < t := by simpa [cursor_filter] using hflt
  omega

theorem get_sessions_final (db : List SessionRow) (u : String)
    (limit : Nat) (c : CursorArg) (h : matched_sessions db u c ≤ limit) :
    (get_sessions db u limit c).has_more = false
    ∧ (get_sessions db u limit c).cursor = none := by
  have hm : (get_sessions db u limit c).has_more = false := by
    rcases Bool.eq_false_or_eq_true ((get_sessions db u limit c).has_more) with hf | htr
    · first
      | exact hf
      | exact absurd ((get_sessions_has_more_iff db u limit c).1 hf) (by omega)
    · first
      | exact htr
      | exact absurd ((get_sessions_has_more_iff db u limit c).1 htr) (by omega)
  refine ⟨hm, ?_⟩
  rw [get_sessions_cursor_eq, hm]
  simp

theorem get_messages_spec (dbS : List SessionRow) (dbM : List MessageRow)
    (u sid : String) (limit : Nat) (c : CursorArg) (page : MessagesPage)
    (h : get_messages dbS dbM u sid limit c = some page) :
    page.messages
      = (fetch_desc_page (fun m => m.created_at)
          ((dbM.filter (fun m => decide (m.session_id = sid))).filter
            (fun m => cursor_filter c m.created_at)) limit).1.reverse
    ∧ page.has_more
      = (fetch_desc_page (fun m => m.created_at)
          ((dbM.filter (fun m => decide (m.session_id = sid))).filter
            (fun m => cursor_filter c m.created_at)) limit).2
    ∧ page.cursor
      = (if (fetch_desc_page (fun m => m.created_at)
            ((dbM.filter (fun m => decide (m.session_id = sid))).filter
              (fun m => cursor_filter c m.created_at)) limit).2
         then (((fetch_desc_page (fun m => m.created_at)
            ((dbM.filter (fun m => decide (m.session_id = sid))).filter
              (fun m => cursor_filter c m.created_at)) limit).1.reverse.head?).map
            (fun m => m.created_at))
         else none) := by
  unfold get_messages at h
  cases hfind : dbS.find? (fun s =>
      decide (s.session_id = sid) && decide (s.user_id = u)) with
  | none =>
    rw [hfind] at h
    exact Option.noConfusion h
  | some s0 =>
    rw [hfind] at h
    have hp := Option.some.inj h
    rw [← hp]
    exact ⟨rfl, rfl, rfl⟩

/-- C9 (cursor pagination over sessions and messages): a page holds at most
limit items; has_more is true exactly when more than limit rows matched
(one extra row is fetched to detect this); pages obtained through the
returned cursor never overlap the previous page (strictly-less-than
filtering on the timestamp); once at most limit rows match, has_more is
false and the cursor is null; and an invalid cursor is treated as no
cursor (first page) rather than an error. -/
theorem c9_cursor_pagination
    (dbS : List SessionRow) (dbM : List MessageRow) (u sid : String)
    (limit : Nat) (c : CursorArg) (s' : String) :
    ((get_sessions dbS u limit c).sessions.length ≤ limit)
    ∧ ((get_sessions dbS u limit c).has_more = true
        ↔ limit < matched_sessions dbS u c)
    ∧ (∀ t, (get_sessions dbS u limit c).cursor = some t →
        ∀ y ∈ (get_sessions dbS u limit (CursorArg.parsed t)).sessions,
          y ∉ (get_sessions dbS u limit c).sessions)
    ∧ (matched_sessions dbS u c ≤ limit →
        (get_sessions dbS u limit c).has_more = false
        ∧ (get_sessions dbS u limit c).cursor = none)
    ∧ (get_sessions dbS u limit (CursorArg.invalid s')
        = get_sessions dbS u limit CursorArg.absent)
    ∧ (∀ page, get_messages dbS dbM u sid limit c = some page →
        page.messages.length ≤ limit
        ∧ (page.has_more = true ↔ limit < matched_messages dbM sid c)
        ∧ (matched_messages dbM sid c ≤ limit →
            page.has_more = false ∧ page.cursor = none)
        ∧ (∀ t, page.cursor = some t →
            ∀ page2,
              get_messages dbS dbM u sid limit (CursorArg.parsed t) = some page2 →
              ∀ y ∈ page2.messages, y ∉ page.messages))
    ∧ (get_messages dbS dbM u sid limit (CursorArg.invalid s')
        = get_messages dbS dbM u sid limit CursorArg.absent) := by
  refine ⟨get_sessions_length_le dbS u limit c,
          get_sessions_has_more_iff dbS u limit c,
          fun t ht => get_sessions_no_overlap dbS u limit c t ht,
          fun h => get_sessions_final dbS u limit c h,
          rfl, ?_, rfl⟩
  intro page hpage
  rcases get_messages_spec dbS dbM u sid limit c page hpage with ⟨hmsg, hhm, hcur⟩
  have hiff : page.has_more = true ↔ limit < matched_messages dbM sid c := by
    rw [hhm]
    exact fetch_desc_page_has_more_iff _ _ _
  refine ⟨?_, hiff, ?_, ?_⟩
  · rw [hmsg, List.length_reverse]
    exact fetch_desc_page_length_le _ _ _
  · intro hle
    have hmf : page.has_more = false := by
      cases hb : page.has_more
      · rfl
      · exact absurd (hiff.1 hb) (by omega)
    refine ⟨hmf, ?_⟩
    rw [hcur]
    have hf2 : (fetch_desc_page (fun m => m.created_at)
        ((dbM.filter (fun m => decide (m.session_id = sid))).filter
          (fun m => cursor_filter c m.created_at)) limit).2 = false := by
      rw [← hhm]
      exact hmf
    rw [hf2]
    simp
  · intro t hct page2 hpage2 y hy hmem
    rw [hcur] at hct
    by_cases hb : (fetch_desc_page (fun m => m.created_at)
        ((dbM.filter (fun m => decide (m.session_id = sid))).filter
          (fun m => cursor_filter c m.created_at)) limit).2 = true
    · rw [if_pos hb] at hct
      rcases Option.map_eq_some'.1 hct with ⟨z, hz, ht⟩
      rw [List.head?_reverse] at hz
      have hpw := fetch_desc_page_pairwise (fun m => m.created_at)
        ((dbM.filter (fun m => decide (m.session_id = sid))).filter
          (fun m => cursor_filter c m.created_at)) limit
      have hmem2 : y ∈ (fetch_desc_page (fun m => m.created_at)
          ((dbM.filter (fun m => decide (m.session_id = sid))).filter
            (fun m => cursor_filter c m.created_at)) limit).1 := by
        rw [hmsg] at hmem
        exact List.mem_reverse.1 hmem
      have hle2 : z.created_at ≤ y.created_at :=
        pairwise_key_getLast (fun m => m.created_at) _ hpw z hz y hmem2
      rcases get_messages_spec dbS dbM u sid limit (CursorArg.parsed t) page2 hpage2
        with ⟨hmsg2, _, _⟩
      have hy2 : y ∈ (fetch_desc_page (fun m => m.created_at)
          ((dbM.filter (fun m => decide (m.session_id = sid))).filter
            (fun m => cursor_filter (CursorArg.parsed t) m.created_at)) limit).1 := by
        rw [hmsg2] at hy
        exact List.mem_reverse.1 hy
      have hyrows := fetch_desc_page_mem _ _ _ _ hy2
      have hflt := (List.mem_filter.1 hyrows).2
      have hlt : y.created_at < t := by
        simpa [cursor_filter] using hflt
      omega
    · rw [if_neg hb] at hct
      cases hct

/-- C9 witness: five sessions at limit 2 give a 2-item first page with a
cursor; the page fetched through that cursor shares no item with it; a
cursor past which only one session remains gives has_more = false and a
null cursor; an invalid cursor equals no cursor; and the first message page
of a 3-message session holds 2 items. -/
theorem c9_cursor_pagination_witness :
    (get_sessions wsDb "u" 2 CursorArg.absent).sessions.length ≤ 2
    ∧ (∀ y ∈ (get_sessions wsDb "u" 2 (CursorArg.parsed 4)).sessions,
        y ∉ (get_sessions wsDb "u" 2 CursorArg.absent).sessions)
    ∧ ((get_sessions wsDb "u" 2 (CursorArg.parsed 2)).has_more = false
       ∧ (get_sessions wsDb "u" 2 (CursorArg.parsed 2)).cursor = none)
    ∧ (get_sessions wsDb "u" 2 (CursorArg.invalid "zz")
        = get_sessions wsDb "u" 2 CursorArg.absent)
    ∧ ({ messages := [⟨"m2", "s1", 2⟩, ⟨"m3", "s1", 3⟩], total := 3,
         has_more := true, cursor := some 2 } : MessagesPage).messages.length ≤ 2 := by
  have h1 := c9_cursor_pagination wsDb wmDb "u" "s1" 2 CursorArg.absent "zz"
  have h2 := c9_cursor_pagination wsDb wmDb "u" "s1" 2 (CursorArg.parsed 2) "zz"
  refine ⟨h1.1, h1.2.2.1 4 rfl, h2.2.2.2.1 (by decide), h1.2.2.2.2.1, ?_⟩
  exact (h1.2.2.2.2.2.1 _ rfl).1
